import Mathlib

/-!
Verification of the unicore device-control layer: the `CameraDevice`
contract (ROI handling, default acquisition loop, construction-time
contract check, standard-property registration) and the configuration
group / discrete-state model.  Python code is embedded shallowly:
methods become pure Lean functions, raised exceptions become explicit
error values, and mutation of `self` becomes state passing.
-/

namespace Spec2Proof

/-- Python exception values raised by the embedded code.  `valueError`
models Python's `ValueError` (what the code raises for the spec's
`InvalidROIError` and `InvalidStateError`), `typeError` models
`TypeError` (the spec's `DeviceContractViolation`), and `runtimeError`
models `RuntimeError` (the spec's `UndefinedLabelError` and
`NativeOnlyRequestFailure`). -/
inductive PyErr where
  | valueError (msg : String)
  | typeError (msg : String)
  | runtimeError (msg : String)
  deriving Repr, DecidableEq

instance {ε α : Type} [DecidableEq ε] [DecidableEq α] : DecidableEq (Except ε α) := fun a b =>
  match a, b with
  | .ok x, .ok y =>
    if h : x = y then .isTrue (congrArg Except.ok h)
    else .isFalse fun hc => h (Except.ok.inj hc)
  | .error x, .error y =>
    if h : x = y then .isTrue (congrArg Except.error h)
    else .isFalse fun hc => h (Except.error.inj hc)
  | .ok _, .error _ => .isFalse fun hc => Except.noConfusion hc
  | .error _, .ok _ => .isFalse fun hc => Except.noConfusion hc

/-- Per-instance state of a `CameraDevice` relevant to ROI handling.
`sensor` embeds the tuple returned by `sensor_shape()` — `(height,
width)` for grayscale or `(height, width, n_channels)` for color —
`dtypeName` names the result of `dtype()`, and `roi` is the `_roi`
attribute, `None` (full frame) by default. -/
structure Camera where
  sensor : List Int
  dtypeName : String
  roi : Option (Int × Int × Int × Int) := none
  deriving Repr, DecidableEq

/-- `CameraDevice.shape`: if `_roi` is set, destructure it as
`(_, _, w, h)` and return `(h, w)`; otherwise return `sensor_shape()`. -/
def Camera.shape (c : Camera) : List Int :=
  match c.roi with
  | some (_, _, w, h) => [h, w]
  | none => c.sensor

/-- `CameraDevice.get_roi`: the stored ROI, or `(0, 0, w, h)` of the
full sensor frame when none is set (`h, w, *_ = self.sensor_shape()`). -/
def Camera.get_roi (c : Camera) : Except PyErr (Int × Int × Int × Int) :=
  match c.roi with
  | some r => .ok r
  | none =>
    match c.sensor with
    | h :: w :: _ => .ok (0, 0, w, h)
    | _ => .error (.valueError "not enough values to unpack")

/-- `CameraDevice.set_roi`: unpacks `h, w, *_ = self.sensor_shape()`,
raises `ValueError` if a coordinate is negative, a dimension is
non-positive, or the rectangle exceeds the sensor bounds, and only
otherwise assigns `self._roi = (x, y, width, height)`.  The result is
the post-call state paired with the raised exception, if any; since the
assignment is the method's last statement, a raise leaves the state
untouched. -/
def Camera.set_roi (c : Camera) (x y width height : Int) : Camera × Option PyErr :=
  match c.sensor with
  | h :: w :: _ =>
    if x < 0 ∨ y < 0 ∨ width ≤ 0 ∨ height ≤ 0 then
      (c, some (.valueError s!"Invalid ROI ({x}, {y}, {width}, {height}): coordinates must be non-negative and dimensions positive."))
    else if x + width > w ∨ y + height > h then
      (c, some (.valueError s!"ROI ({x}, {y}, {width}, {height}) exceeds sensor bounds."))
    else
      ({ c with roi := some (x, y, width, height) }, none)
  | _ => (c, some (.valueError "not enough values to unpack"))

/-- `CameraDevice.clear_roi`: resets `_roi` to `None` (full frame). -/
def Camera.clear_roi (c : Camera) : Camera :=
  { c with roi := none }

/-- Claim C1: for every camera and candidate ROI `(x, y, width,
height)`, if `x < 0`, `y < 0`, `width ≤ 0`, `height ≤ 0`,
`x + width > sensor_width` or `y + height > sensor_height` then
`set_roi` raises (a `ValueError`, the code's realization of the spec's
`InvalidROIError`) and the stored ROI — or its absence — is exactly
what it was before the call; otherwise `set_roi` succeeds and stores
`(x, y, width, height)`. -/
theorem set_roi_validates (c : Camera) (sh sw : Int) (rest : List Int)
    (hs : c.sensor = sh :: sw :: rest) (x y width height : Int) :
    (x < 0 ∨ y < 0 ∨ width ≤ 0 ∨ height ≤ 0 ∨ x + width > sw ∨ y + height > sh →
      (c.set_roi x y width height).1 = c ∧
      ∃ msg, (c.set_roi x y width height).2 = some (.valueError msg)) ∧
    (0 ≤ x → 0 ≤ y → 0 < width → 0 < height → x + width ≤ sw → y + height ≤ sh →
      (c.set_roi x y width height).1.roi = some (x, y, width, height) ∧
      (c.set_roi x y width height).2 = none) := by
  constructor
  · intro hbad
    unfold Camera.set_roi
    rw [hs]
    by_cases h1 : x < 0 ∨ y < 0 ∨ width ≤ 0 ∨ height ≤ 0
    · simp [h1]
    · have h2 : x + width > sw ∨ y + height > sh := by omega
      simp [h1, h2]
  · intro hx hy hw hh hxw hyh
    unfold Camera.set_roi
    rw [hs]
    have h1 : ¬(x < 0 ∨ y < 0 ∨ width ≤ 0 ∨ height ≤ 0) := by omega
    have h2 : ¬(x + width > sw ∨ y + height > sh) := by omega
    simp [h1, h2]

/-- Witness for C1: on a 10×20 sensor, `set_roi 2 3 5 4` succeeds and
stores the ROI, and `set_roi (-1) 0 5 4` fails leaving the state
unchanged. -/
theorem set_roi_validates_witness :
    (((⟨[10, 20], "uint16", none⟩ : Camera).set_roi 2 3 5 4).1.roi = some (2, 3, 5, 4) ∧
      ((⟨[10, 20], "uint16", none⟩ : Camera).set_roi 2 3 5 4).2 = none) ∧
    ((⟨[10, 20], "uint16", none⟩ : Camera).set_roi (-1) 0 5 4).1 = ⟨[10, 20], "uint16", none⟩ := by
  refine ⟨?_, ?_⟩
  · exact (set_roi_validates ⟨[10, 20], "uint16", none⟩ 10 20 [] rfl 2 3 5 4).2
      (by decide) (by decide) (by decide) (by decide) (by decide) (by decide)
  · exact ((set_roi_validates ⟨[10, 20], "uint16", none⟩ 10 20 [] rfl (-1) 0 5 4).1
      (by decide)).1

/-- Claim C2: `shape()` (the spec's `current_shape()`) equals
`sensor_shape()` when no ROI is set, and equals `(height, width)` of the
active ROI `(x, y, width, height)` when one is set. -/
theorem shape_follows_roi (c : Camera) :
    (c.roi = none → c.shape = c.sensor) ∧
    (∀ x y width height : Int,
      c.roi = some (x, y, width, height) → c.shape = [height, width]) := by
  constructor
  · intro h
    unfold Camera.shape
    rw [h]
  · intro x y width height h
    unfold Camera.shape
    rw [h]

/-- Witness for C2: with ROI `(2, 3, 5, 4)` active the shape is
`[4, 5]`; with none, the full 10×20 sensor shape. -/
theorem shape_follows_roi_witness :
    (⟨[10, 20], "u2", some (2, 3, 5, 4)⟩ : Camera).shape = [4, 5] ∧
    (⟨[10, 20], "u2", none⟩ : Camera).shape = [10, 20] :=
  ⟨(shape_follows_roi _).2 2 3 5 4 rfl, (shape_follows_roi _).1 rfl⟩

/-- Number of times the Python loop `while count < limit: ...; yield
meta; count += 1` yields, starting from a given `count`. -/
def loopCount (count limit : Int) : Nat :=
  if count < limit then loopCount (count + 1) limit + 1 else 0
termination_by (limit - count).toNat
decreasing_by omega

theorem loopCount_eq (count limit : Int) : loopCount count limit = (limit - count).toNat := by
  by_cases h : count < limit
  · rw [loopCount, if_pos h, loopCount_eq (count + 1) limit]
    omega
  · rw [loopCount, if_neg h]
    omega
termination_by (limit - count).toNat
decreasing_by omega

/-- Default `CameraDevice.start_sequence`: the number of metadata items
the returned generator yields before stopping.  Both its branches run
`count = 0`, `limit = n if n is not None else 2**63`,
`while count < limit: ...; yield meta; count += 1`. -/
def start_sequence_yield_count (n : Option Int) : Nat :=
  loopCount 0 (match n with | some k => k | none => 2 ^ 63)

/-- Claim C3 (code divergence): with `n = some k`, `k ≥ 0`, the default
`start_sequence` generator yields exactly `k` items and terminates, as
claimed; but with `n = none` it yields exactly `2 ^ 63` items and then
terminates — a finite sequence, not the unbounded "item for every pull"
sequence the claim and the method's own docstring ("acquire images
indefinitely until stopped") describe. -/
theorem start_sequence_count :
    (∀ k : Int, 0 ≤ k → start_sequence_yield_count (some k) = k.toNat) ∧
    start_sequence_yield_count none = 2 ^ 63 := by
  constructor
  · intro k hk
    rw [show start_sequence_yield_count (some k) = loopCount 0 k from rfl, loopCount_eq]
    omega
  · rw [show start_sequence_yield_count none = loopCount 0 (2 ^ 63) from rfl, loopCount_eq]
    decide

/-- Witness for C3: a five-frame request yields five items. -/
theorem start_sequence_count_witness : start_sequence_yield_count (some 5) = 5 :=
  start_sequence_count.1 5 (by decide)

/-- NumPy basic slicing `m[y : y + hgt, x : x + wid]` of a 2-D array
represented row-major as a list of rows. -/
def numpySlice2d (m : List (List α)) (y hgt x wid : Nat) : List (List α) :=
  ((m.drop y).take hgt).map fun row => (row.drop x).take wid

theorem numpySlice2d_getElem (m : List (List α)) (y hgt x wid i j : Nat)
    (hi : i < hgt) (hj : j < wid) :
    ((numpySlice2d m y hgt x wid)[i]?.bind fun row => row[j]?) =
      (m[y + i]?.bind fun row => row[x + j]?) := by
  unfold numpySlice2d
  rw [List.getElem?_map, List.getElem?_take_of_lt hi, List.getElem?_drop]
  cases hrow : m[y + i]? with
  | none => rfl
  | some row =>
    simp [List.getElem?_take_of_lt hj, List.getElem?_drop]

theorem numpySlice2d_length (m : List (List α)) (y hgt x wid : Nat)
    (h : y + hgt ≤ m.length) : (numpySlice2d m y hgt x wid).length = hgt := by
  unfold numpySlice2d
  rw [List.length_map, List.length_take, List.length_drop]
  omega

theorem numpySlice2d_row_length (m : List (List α)) (y hgt x wid : Nat)
    (h : ∀ row ∈ m, x + wid ≤ row.length) :
    ∀ row ∈ numpySlice2d m y hgt x wid, row.length = wid := by
  intro row hrow
  unfold numpySlice2d at hrow
  rw [List.mem_map] at hrow
  obtain ⟨r, hr, rfl⟩ := hrow
  have hrm : r ∈ m := List.mem_of_mem_drop (List.mem_of_mem_take hr)
  rw [List.length_take, List.length_drop]
  have := h r hrm
  omega

/-- One iteration of the default `start_sequence` loop: the shape
passed to `get_buffer` — the full `sensor_shape()` when `_roi` is
`None` (and `snap` then fills that buffer directly), else
`roi_shape = self.shape()`. -/
def frame_request_shape (c : Camera) : List Int :=
  match c.roi with
  | none => c.sensor
  | some _ => c.shape

/-- One iteration of the default `start_sequence` loop: the pixel data
held by the buffer handed back to the caller, given the full-frame
image `snapImg` that `snap` writes.  With no ROI, `snap(buf)` fills the
output buffer itself; with ROI `(x, y, w, h)`, `snap(full_buf)` fills
the retained full-frame scratch buffer and then
`out[:] = full_buf[y : y + h, x : x + w]`. -/
def frame_output (c : Camera) (snapImg : List (List α)) : List (List α) :=
  match c.roi with
  | none => snapImg
  | some (x, y, w, h) => numpySlice2d snapImg y.toNat h.toNat x.toNat w.toNat

/-- Claim C4: with no ROI active, each frame of the default
`start_sequence` asks `buffer_provider` for a full-sensor buffer and
`snap` fills it directly; with ROI `(x, y, w, h)` active, the output
buffer has ROI shape and holds exactly the sub-region
`[y, y + h) × [x, x + w)` of the full-frame image that `snap` wrote
into the scratch buffer. -/
theorem start_sequence_roi_reduction (c : Camera) (snapImg : List (List Int))
    (sh sw : Nat) (hrows : snapImg.length = sh)
    (hcols : ∀ row ∈ snapImg, row.length = sw) :
    (c.roi = none → frame_request_shape c = c.sensor ∧ frame_output c snapImg = snapImg) ∧
    (∀ x y w h : Int, c.roi = some (x, y, w, h) →
      0 ≤ x → 0 ≤ y → 0 < w → 0 < h →
      x.toNat + w.toNat ≤ sw → y.toNat + h.toNat ≤ sh →
      frame_request_shape c = [h, w] ∧
      (frame_output c snapImg).length = h.toNat ∧
      (∀ row ∈ frame_output c snapImg, row.length = w.toNat) ∧
      (∀ i j : Nat, i < h.toNat → j < w.toNat →
        ((frame_output c snapImg)[i]?.bind fun row => row[j]?) =
          (snapImg[y.toNat + i]?.bind fun row => row[x.toNat + j]?))) := by
  constructor
  · intro hroi
    unfold frame_request_shape frame_output
    rw [hroi]
    exact ⟨rfl, rfl⟩
  · intro x y w h hroi hx hy hw hh hxw hyh
    refine ⟨?_, ?_, ?_, ?_⟩
    · unfold frame_request_shape Camera.shape
      rw [hroi]
    · unfold frame_output
      rw [hroi]
      exact numpySlice2d_length snapImg _ _ _ _ (by omega)
    · unfold frame_output
      rw [hroi]
      exact numpySlice2d_row_length snapImg _ _ _ _ (fun row hr => by
        have := hcols row hr
        omega)
    · intro i j hi hj
      unfold frame_output
      rw [hroi]
      exact numpySlice2d_getElem snapImg _ _ _ _ i j hi hj

/-- Witness for C4: a 3×4 image with ROI `(1, 0, 2, 3)`: the output is
the 3×2 block of columns 1–2, element `(2, 1)` of the output being
element `(2, 2)` of the full frame. -/
theorem start_sequence_roi_reduction_witness :
    frame_request_shape ⟨[3, 4], "u2", some (1, 0, 2, 3)⟩ = [3, 2] ∧
    ((frame_output ⟨[3, 4], "u2", some (1, 0, 2, 3)⟩
        ([[0, 1, 2, 3], [10, 11, 12, 13], [20, 21, 22, 23]] : List (List Int)))[2]?.bind
      fun row => row[1]?) = some 22 := by
  have hmain := start_sequence_roi_reduction ⟨[3, 4], "u2", some (1, 0, 2, 3)⟩
    [[0, 1, 2, 3], [10, 11, 12, 13], [20, 21, 22, 23]] 3 4 rfl (by decide)
  have h2 := hmain.2 1 0 2 3 rfl (by decide) (by decide) (by decide) (by decide)
    (by decide) (by decide)
  refine ⟨h2.1, ?_⟩
  have hval : (([[0, 1, 2, 3], [10, 11, 12, 13], [20, 21, 22, 23]] :
      List (List Int))[Int.toNat 0 + 2]?.bind fun row => row[Int.toNat 1 + 1]?) =
      some 22 := by decide
  exact (h2.2.2.2 2 1 (by decide) (by decide)).trans hval

/-- Declared types appearing in `CameraDevice.STANDARD_PROPERTIES`
(`float`, `int`, `str`, `PixelFormat`). -/
inductive PropType where
  | float
  | int
  | string
  | pixelFormat
  deriving Repr, DecidableEq

/-- The keys of `CameraDevice.STANDARD_PROPERTIES`: members of the
`Keyword` enumeration, plus the literal `"PixelFormat"` key. -/
inductive Keyword where
  | ActualInterval_ms
  | Binning
  | CameraID
  | CameraName
  | CCDTemperature
  | CCDTemperatureSetPoint
  | EMGain
  | Exposure
  | Gain
  | Interval_ms
  | Offset
  | PixelFormat
  | ReadoutMode
  | ReadoutTime
  | Metadata_ROI_X
  | Metadata_ROI_Y
  deriving Repr, DecidableEq

/-- `CameraDevice.STANDARD_PROPERTIES`: property name → (snake-case
method stem, declared type), in the dict's insertion order. -/
def STANDARD_PROPERTIES : List (Keyword × String × PropType) :=
  [(.ActualInterval_ms, "actual_interval_ms", .float),
   (.Binning, "binning", .int),
   (.CameraID, "camera_id", .string),
   (.CameraName, "camera_name", .string),
   (.CCDTemperature, "ccd_temperature", .float),
   (.CCDTemperatureSetPoint, "ccd_temperature_set_point", .float),
   (.EMGain, "em_gain", .float),
   (.Exposure, "exposure", .float),
   (.Gain, "gain", .float),
   (.Interval_ms, "interval_ms", .float),
   (.Offset, "offset", .float),
   (.PixelFormat, "pixel_format", .pixelFormat),
   (.ReadoutMode, "readout_mode", .string),
   (.ReadoutTime, "readout_time", .float),
   (.Metadata_ROI_X, "roi_x", .int),
   (.Metadata_ROI_Y, "roi_y", .int)]

/-- Methods defined on the `CameraDevice` base class itself, hence
found by `getattr(cls, name)` on every concrete camera class even when
the subclass does not define them.  Notably the base supplies a default
`get_binning`, while `snap` and `start_sequence` also have base
implementations (the init-time check below tests whether the subclass
replaced them). -/
def baseCameraMethods : List String :=
  ["get_exposure", "set_exposure", "sensor_shape", "dtype", "snap",
   "start_sequence", "shape", "get_roi", "set_roi", "clear_roi",
   "get_binning", "register_standard_properties"]

/-- A concrete camera class, described by the set of (snake-case)
method names its own body defines, overriding or extending the base. -/
structure CameraClass where
  methods : List String
  deriving Repr, DecidableEq

/-- `getattr(cls, m, None) is not None`: a name resolves on the class
if the subclass defines it or the base class does. -/
def CameraClass.hasAttr (c : CameraClass) (m : String) : Bool :=
  c.methods.contains m || baseCameraMethods.contains m

/-- Registry entry produced by `register_property` for a standard
camera property: its name, declared type, whether a setter was found,
and whether the getter resolved to the base class's default (the
subclass defined no `get_*` of its own). -/
structure RegisteredProp where
  name : Keyword
  ptype : PropType
  hasSetter : Bool
  getterFromBase : Bool
  deriving Repr, DecidableEq

/-- The per-entry body of `register_standard_properties`: register the
property iff `get_<snake_name>` resolves on the class, recording
whether `set_<snake_name>` resolves as well (sequencing hooks, looked
up the same way, are not modelled). -/
def registerProp (c : CameraClass) (entry : Keyword × String × PropType) :
    Option RegisteredProp :=
  if c.hasAttr ("get_" ++ entry.2.1) then
    some ⟨entry.1, entry.2.2, c.hasAttr ("set_" ++ entry.2.1),
          !(c.methods.contains ("get_" ++ entry.2.1))⟩
  else none

/-- `CameraDevice.register_standard_properties`: iterate
`STANDARD_PROPERTIES` in order, registering each property whose getter
the class defines. -/
def register_standard_properties (c : CameraClass) : List RegisteredProp :=
  STANDARD_PROPERTIES.filterMap (registerProp c)

/-- `CameraDevice.__init__`: raise `TypeError` when the concrete class
overrides neither `snap` nor `start_sequence` (checked once, before
anything else); otherwise construction proceeds and registers the
standard properties. -/
def camera_init (c : CameraClass) : Except PyErr (List RegisteredProp) :=
  if !(c.methods.contains "snap") && !(c.methods.contains "start_sequence") then
    .error (.typeError "must implement snap() or start_sequence()")
  else
    .ok (register_standard_properties c)

/-- The base class's default `get_binning`, which returns `1`. -/
def CameraDevice_get_binning : Int := 1

/-- Claim C5: constructing a camera whose class overrides neither
`snap` nor `start_sequence` fails at `__init__` time with `TypeError`
(the spec's contract-violation error); a class overriding at least one
of the two constructs successfully. -/
theorem init_requires_snap_or_sequence (c : CameraClass) :
    (c.methods.contains "snap" = false → c.methods.contains "start_sequence" = false →
      camera_init c = .error (.typeError "must implement snap() or start_sequence()")) ∧
    (c.methods.contains "snap" = true ∨ c.methods.contains "start_sequence" = true →
      camera_init c = .ok (register_standard_properties c)) := by
  constructor
  · intro h1 h2
    unfold camera_init
    rw [h1, h2]
    rfl
  · intro h
    unfold camera_init
    rcases h with h | h <;> rw [h] <;> simp

/-- Witness for C5: a class defining only `snap` constructs; a class
defining neither `snap` nor `start_sequence` raises `TypeError`. -/
theorem init_requires_snap_or_sequence_witness :
    camera_init ⟨["snap", "sensor_shape", "dtype"]⟩ =
      .ok (register_standard_properties ⟨["snap", "sensor_shape", "dtype"]⟩) ∧
    camera_init ⟨["sensor_shape", "dtype"]⟩ =
      .error (.typeError "must implement snap() or start_sequence()") :=
  ⟨(init_requires_snap_or_sequence _).2 (Or.inl (by decide)),
   (init_requires_snap_or_sequence _).1 (by decide) (by decide)⟩

/-- Claim C10: every successfully constructed camera registers the
`Binning` property — the base class supplies `get_binning` (returning
`1`) so the getter always resolves — and the entry has a setter exactly
when the subclass defines `set_binning`; when the subclass defines no
`get_binning` of its own, the getter is the base default. -/
theorem binning_always_registered (c : CameraClass) :
    (∃ p ∈ register_standard_properties c, p.name = .Binning) ∧
    (∀ p ∈ register_standard_properties c, p.name = .Binning →
      p.hasSetter = c.methods.contains "set_binning" ∧
      (c.methods.contains "get_binning" = false → p.getterFromBase = true)) ∧
    CameraDevice_get_binning = 1 := by
  have hbase : baseCameraMethods.contains "get_binning" = true := by decide
  have hnoset : baseCameraMethods.contains "set_binning" = false := by decide
  have hget : c.hasAttr "get_binning" = true := by
    unfold CameraClass.hasAttr
    rw [hbase, Bool.or_true]
  have hset : c.hasAttr "set_binning" = c.methods.contains "set_binning" := by
    unfold CameraClass.hasAttr
    rw [hnoset, Bool.or_false]
  have eget : ("get_" ++ "binning" : String) = "get_binning" := by decide
  have eset : ("set_" ++ "binning" : String) = "set_binning" := by decide
  refine ⟨?_, ?_, rfl⟩
  · refine ⟨⟨.Binning, .int, c.hasAttr "set_binning",
      !(c.methods.contains "get_binning")⟩, ?_, rfl⟩
    unfold register_standard_properties
    refine List.mem_filterMap.mpr ⟨(.Binning, "binning", .int), by decide, ?_⟩
    unfold registerProp
    simp [eget, eset, hget]
  · intro p hp hname
    unfold register_standard_properties at hp
    obtain ⟨entry, hentry, hf⟩ := List.mem_filterMap.mp hp
    unfold registerProp at hf
    simp only [STANDARD_PROPERTIES, List.mem_cons, List.not_mem_nil, or_false] at hentry
    rcases hentry with rfl | rfl | rfl | rfl | rfl | rfl | rfl | rfl | rfl | rfl | rfl |
      rfl | rfl | rfl | rfl | rfl <;>
    · split at hf
      · cases hf
        dsimp only at hname ⊢
        first
        | exact absurd hname (by decide)
        | (rw [eget, eset]
           exact ⟨hset, fun h => by rw [h]; rfl⟩)
      · exact Option.noConfusion hf

/-- Witness for C10: a class defining only `snap` methods still gets a
read-only `Binning` entry served by the base getter. -/
theorem binning_always_registered_witness :
    (∃ p ∈ register_standard_properties ⟨["snap", "sensor_shape", "dtype"]⟩,
      p.name = .Binning) ∧ CameraDevice_get_binning = 1 :=
  ⟨(binning_always_registered ⟨["snap", "sensor_shape", "dtype"]⟩).1,
   (binning_always_registered ⟨["snap", "sensor_shape", "dtype"]⟩).2.2⟩

/-- Value of a decimal digit character, `none` for a non-digit. -/
def digitVal (c : Char) : Option Nat :=
  if c.isDigit then some (c.toNat - 48) else none

/-- Accumulate decimal digits left to right; any non-digit fails. -/
def parseNatCore : List Char → Nat → Option Nat
  | [], acc => some acc
  | c :: rest, acc =>
    match digitVal c with
    | some d => parseNatCore rest (acc * 10 + d)
    | none => none

/-- A non-empty run of decimal digits as a natural number. -/
def parseNatDigits : List Char → Option Nat
  | [] => none
  | l => parseNatCore l 0

/-- Modelled from the spec: Python's `int(value)` on a decimal string
literal with optional leading minus sign, as used for the one-time
string → int coercion at the property-set boundary (the Property
Registry source is not under the provided sources). -/
def parseInt (s : String) : Option Int :=
  match s.data with
  | '-' :: rest => (parseNatDigits rest).map fun n => -(n : Int)
  | l => (parseNatDigits l).map fun n => (n : Int)

/-- Modelled from the spec: the `DiscreteState` data of a `StateDevice`
(the unicore `StateDevice` class is not under the provided sources,
only its tests): a two-way index ↔ label mapping plus the current
index and the current label, both stored. -/
structure StateDev where
  mapping : List (Int × String)
  currentIndex : Int
  currentLabel : String
  deriving Repr, DecidableEq

/-- Modelled from the spec: `label_of` — the label the mapping
associates with an index. -/
def StateDev.label_of (d : StateDev) (i : Int) : Option String :=
  (d.mapping.find? fun e => e.1 == i).map fun e => e.2

/-- Modelled from the spec: `index_of` — the index the mapping
associates with a label. -/
def StateDev.index_of (d : StateDev) (l : String) : Option Int :=
  (d.mapping.find? fun e => e.2 == l).map fun e => e.1

/-- Modelled from the spec: `set_state(index)` — an index outside the
mapping's domain fails with `InvalidStateError` (realized as Python
`ValueError`, message as in the repository's tests); a valid index
updates the current index and the current label together. -/
def StateDev.set_state_index (d : StateDev) (i : Int) : Except PyErr StateDev :=
  match d.label_of i with
  | some lbl => .ok { d with currentIndex := i, currentLabel := lbl }
  | none => .error (.valueError s!"Position {i} is not a valid state")

/-- Modelled from the spec: `set_state(label)` — resolves the label
through the mapping and calls the index-based path; an unrecognized
label fails with `UndefinedLabelError` (realized as `RuntimeError`,
message prefix as in the repository's tests). -/
def StateDev.set_state_label (d : StateDev) (l : String) : Except PyErr StateDev :=
  match d.index_of l with
  | some i => d.set_state_index i
  | none => .error (.runtimeError ("Label not defined: " ++ l))

/-- Modelled from the spec: the "State" and "Label" properties exposed
through the Property Registry are views over the discrete-state pair —
setting "State" (with string → int coercion once, at the set boundary)
runs the index path and setting "Label" runs the label path; neither is
an independently stored value. -/
def StateDev.set_property (d : StateDev) (prop value : String) : Except PyErr StateDev :=
  if prop == "State" then
    match parseInt value with
    | some i => d.set_state_index i
    | none => .error (.valueError ("invalid literal for int: " ++ value))
  else if prop == "Label" then
    d.set_state_label value
  else
    .error (.runtimeError ("No property with name: " ++ prop))

/-- Modelled from the spec: config application pushes every (property,
value) setting through the property-set path in order, stopping at the
first failure (explicit non-atomicity). -/
def StateDev.apply_settings : StateDev → List (String × String) → Except PyErr StateDev
  | d, [] => .ok d
  | d, (prop, value) :: rest =>
    match d.set_property prop value with
    | .ok d2 => d2.apply_settings rest
    | .error e => .error e

/-- The bidirectional sync invariant of the spec: the label the mapping
assigns to the current index is exactly the current label. -/
def StateDev.synced (d : StateDev) : Prop :=
  d.label_of d.currentIndex = some d.currentLabel

theorem label_of_mapping_eq {d d2 : StateDev} (h : d2.mapping = d.mapping) (i : Int) :
    d2.label_of i = d.label_of i := by
  unfold StateDev.label_of
  rw [h]

theorem set_state_index_ok {d : StateDev} {i : Int} {d2 : StateDev}
    (h : d.set_state_index i = .ok d2) :
    d2.mapping = d.mapping ∧ d2.currentIndex = i ∧ d.label_of i = some d2.currentLabel := by
  unfold StateDev.set_state_index at h
  cases hl : d.label_of i with
  | none => rw [hl] at h; exact Except.noConfusion h
  | some lbl =>
    rw [hl] at h
    cases h
    exact ⟨rfl, rfl, rfl⟩

theorem set_state_index_synced {d : StateDev} {i : Int} {d2 : StateDev}
    (h : d.set_state_index i = .ok d2) : d2.synced := by
  obtain ⟨hm, hi, hl⟩ := set_state_index_ok h
  unfold StateDev.synced
  rw [label_of_mapping_eq hm, hi]
  exact hl

theorem set_state_label_ok {d : StateDev} {l : String} {d2 : StateDev}
    (h : d.set_state_label l = .ok d2) :
    d2.synced ∧ d.index_of l = some d2.currentIndex := by
  unfold StateDev.set_state_label at h
  cases hi : d.index_of l with
  | none => rw [hi] at h; exact Except.noConfusion h
  | some i =>
    rw [hi] at h
    refine ⟨set_state_index_synced h, ?_⟩
    rw [(set_state_index_ok h).2.1]

theorem set_property_synced {d : StateDev} {prop value : String} {d2 : StateDev}
    (h : d.set_property prop value = .ok d2) : d2.synced := by
  unfold StateDev.set_property at h
  by_cases hs : prop == "State"
  · rw [if_pos hs] at h
    cases hv : parseInt value with
    | none => rw [hv] at h; exact Except.noConfusion h
    | some i => rw [hv] at h; exact set_state_index_synced h
  · rw [if_neg hs] at h
    by_cases hl : prop == "Label"
    · rw [if_pos hl] at h
      exact (set_state_label_ok h).1
    · rw [if_neg hl] at h
      exact Except.noConfusion h

theorem apply_settings_synced :
    ∀ (settings : List (String × String)) (d d2 : StateDev),
      d.synced → d.apply_settings settings = .ok d2 → d2.synced := by
  intro settings
  induction settings with
  | nil =>
    intro d d2 hs h
    unfold StateDev.apply_settings at h
    cases h
    exact hs
  | cons hd tl ih =>
    intro d d2 hs h
    obtain ⟨prop, value⟩ := hd
    unfold StateDev.apply_settings at h
    cases hstep : d.set_property prop value with
    | error e => rw [hstep] at h; exact Except.noConfusion h
    | ok dmid =>
      rw [hstep] at h
      exact ih dmid d2 (set_property_synced hstep) h

/-- Claim C6: for every discrete-state device, each state-changing
operation — `set_state` by index, `set_state` by label, setting the
"State" or "Label" property, or applying a config's settings through
the property path — leaves `label_of(current_index) == current_label`;
moreover after `set_state(index)` the current label is `label_of
(index)`, and after `set_state(label)` the current index is
`index_of(label)`. -/
theorem state_label_synchronization (d : StateDev) :
    (∀ i d2, d.set_state_index i = .ok d2 →
      d2.synced ∧ d2.currentIndex = i ∧ d.label_of i = some d2.currentLabel) ∧
    (∀ l d2, d.set_state_label l = .ok d2 →
      d2.synced ∧ d.index_of l = some d2.currentIndex) ∧
    (∀ prop value d2, d.set_property prop value = .ok d2 → d2.synced) ∧
    (∀ settings d2, d.synced → d.apply_settings settings = .ok d2 → d2.synced) := by
  refine ⟨?_, ?_, ?_, ?_⟩
  · intro i d2 h
    exact ⟨set_state_index_synced h, (set_state_index_ok h).2.1, (set_state_index_ok h).2.2⟩
  · intro l d2 h
    exact set_state_label_ok h
  · intro prop value d2 h
    exact set_property_synced h
  · intro settings d2 hs h
    exact apply_settings_synced settings d d2 hs h

/-- Witness for C6: the test's PyLED device (UV/BLUE/RED): applying a
config that sets "State" to "1" lands on index 1 with label "BLUE", in
sync. -/
theorem state_label_synchronization_witness :
    (⟨[(0, "UV"), (1, "BLUE"), (2, "RED")], 0, "UV"⟩ : StateDev).apply_settings
        [("State", "1")] = .ok ⟨[(0, "UV"), (1, "BLUE"), (2, "RED")], 1, "BLUE"⟩ ∧
    (⟨[(0, "UV"), (1, "BLUE"), (2, "RED")], 1, "BLUE"⟩ : StateDev).synced := by
  refine ⟨by decide, ?_⟩
  exact (state_label_synchronization ⟨[(0, "UV"), (1, "BLUE"), (2, "RED")], 0, "UV"⟩).2.2.2
    [("State", "1")] ⟨[(0, "UV"), (1, "BLUE"), (2, "RED")], 1, "BLUE"⟩
    (by decide :
      (⟨[(0, "UV"), (1, "BLUE"), (2, "RED")], 0, "UV"⟩ : StateDev).label_of 0 = some "UV")
    (by decide)

/-- A `Setting` triplet: (device label, property name, value string). -/
abbrev Setting := String × String × String

/-- Modelled from the spec: one `define_config(group, config, device,
property, value)` call adding a setting to a config's ordered settings
list (the Configuration Store source is not under the provided
sources): when the (device, property) pair is already present its value
is replaced in place — the last definition wins — otherwise the
triplet is appended. -/
def define_setting (settings : List Setting) (dev prop value : String) : List Setting :=
  if settings.any fun s => s.1 == dev && s.2.1 == prop then
    settings.map fun s => if s.1 == dev && s.2.1 == prop then (dev, prop, value) else s
  else
    settings ++ [(dev, prop, value)]

/-- The (device, property) pairs of a settings list, in order. -/
def settingKeys (settings : List Setting) : List (String × String) :=
  settings.map fun s => (s.1, s.2.1)

/-- Modelled from the spec: the settings of a config built from the
empty list by a sequence of `define_config` calls (what
`get_config_data` then returns). -/
def config_defines (ops : List Setting) : List Setting :=
  ops.foldl (fun acc op => define_setting acc op.1 op.2.1 op.2.2) []

theorem settingKeys_define (settings : List Setting) (dev prop value : String) :
    settingKeys (define_setting settings dev prop value) =
      if settings.any fun s => s.1 == dev && s.2.1 == prop then settingKeys settings
      else settingKeys settings ++ [(dev, prop)] := by
  unfold define_setting settingKeys
  split
  · rw [List.map_map]
    refine List.map_congr_left ?_
    intro s hs
    by_cases hc : (s.1 == dev && s.2.1 == prop) = true
    · simp only [Function.comp_apply, if_pos hc]
      rw [Bool.and_eq_true, beq_iff_eq, beq_iff_eq] at hc
      rw [hc.1, hc.2]
    · simp only [Function.comp_apply, if_neg hc]
  · rw [List.map_append]
    rfl

theorem not_mem_keys_of_not_any {settings : List Setting} {dev prop : String}
    (h : ¬ (settings.any fun s => s.1 == dev && s.2.1 == prop) = true) :
    (dev, prop) ∉ settingKeys settings := by
  intro hmem
  unfold settingKeys at hmem
  rw [List.mem_map] at hmem
  obtain ⟨s, hs, hkey⟩ := hmem
  apply h
  rw [List.any_eq_true]
  refine ⟨s, hs, ?_⟩
  rw [Bool.and_eq_true, beq_iff_eq, beq_iff_eq]
  exact ⟨congrArg Prod.fst hkey, congrArg Prod.snd hkey⟩

theorem define_setting_nodup (settings : List Setting) (dev prop value : String)
    (h : (settingKeys settings).Nodup) :
    (settingKeys (define_setting settings dev prop value)).Nodup := by
  rw [settingKeys_define]
  split
  · exact h
  · rename_i hany
    rw [List.nodup_append]
    refine ⟨h, List.nodup_singleton _, ?_⟩
    intro a ha hb
    rw [List.mem_singleton] at hb
    subst hb
    exact not_mem_keys_of_not_any hany ha

theorem config_defines_nodup_aux :
    ∀ (ops : List Setting) (s : List Setting), (settingKeys s).Nodup →
      (settingKeys (ops.foldl (fun acc op => define_setting acc op.1 op.2.1 op.2.2) s)).Nodup := by
  intro ops
  induction ops with
  | nil => intro s h; exact h
  | cons hd tl ih =>
    intro s h
    exact ih _ (define_setting_nodup s hd.1 hd.2.1 hd.2.2 h)

theorem define_setting_last_wins (settings : List Setting) (dev prop value : String) :
    (∀ t ∈ define_setting settings dev prop value, t.1 = dev → t.2.1 = prop → t.2.2 = value) ∧
    (dev, prop, value) ∈ define_setting settings dev prop value := by
  unfold define_setting
  split
  · rename_i hany
    constructor
    · intro t ht h1 h2
      rw [List.mem_map] at ht
      obtain ⟨s, hs, hf⟩ := ht
      by_cases hc : (s.1 == dev && s.2.1 == prop) = true
      · rw [if_pos hc] at hf
        rw [← hf]
      · rw [if_neg hc] at hf
        subst hf
        rw [Bool.and_eq_true, beq_iff_eq, beq_iff_eq] at hc
        exact absurd ⟨h1, h2⟩ hc
    · rw [List.any_eq_true] at hany
      obtain ⟨s, hs, hc⟩ := hany
      rw [List.mem_map]
      exact ⟨s, hs, by rw [if_pos hc]⟩
  · rename_i hany
    constructor
    · intro t ht h1 h2
      rw [List.mem_append] at ht
      rcases ht with ht | ht
      · exfalso
        apply hany
        rw [List.any_eq_true]
        refine ⟨t, ht, ?_⟩
        rw [Bool.and_eq_true, beq_iff_eq, beq_iff_eq]
        exact ⟨h1, h2⟩
      · rw [List.mem_singleton] at ht
        rw [ht]
    · exact List.mem_append.mpr (Or.inr (List.mem_singleton.mpr rfl))

/-- Claim C9: a config's settings never hold two triplets with the same
(device, property) pair — the pairs produced by any sequence of
`define_config` calls from the empty config are duplicate-free — and
re-defining a pair replaces the earlier value: after a define, every
triplet at that pair carries the new value, and one such triplet is
present. -/
theorem config_settings_dedup :
    (∀ ops : List Setting, (settingKeys (config_defines ops)).Nodup) ∧
    (∀ settings dev prop value,
      (∀ t ∈ define_setting settings dev prop value,
        t.1 = dev → t.2.1 = prop → t.2.2 = value) ∧
      (dev, prop, value) ∈ define_setting settings dev prop value) := by
  constructor
  · intro ops
    exact config_defines_nodup_aux ops [] List.nodup_nil
  · intro settings dev prop value
    exact define_setting_last_wins settings dev prop value

/-- Witness for C9: re-defining ("PyLED", "Label") keeps one triplet
per pair, with the last value "BLUE" winning. -/
theorem config_settings_dedup_witness :
    (settingKeys (config_defines [("PyLED", "Label", "UV"), ("PyLED", "Intensity", "100"),
        ("PyLED", "Label", "BLUE")])).Nodup ∧
    ("PyLED", "Label", "BLUE") ∈
      define_setting [("PyLED", "Label", "UV")] "PyLED" "Label" "BLUE" ∧
    (("PyLED", "Label", "BLUE") : Setting).2.2 = "BLUE" :=
  ⟨config_settings_dedup.1 [("PyLED", "Label", "UV"), ("PyLED", "Intensity", "100"),
      ("PyLED", "Label", "BLUE")],
   (config_settings_dedup.2 [("PyLED", "Label", "UV")] "PyLED" "Label" "BLUE").2,
   (config_settings_dedup.2 [("PyLED", "Label", "UV")] "PyLED" "Label" "BLUE").1
     ("PyLED", "Label", "BLUE")
     ((config_settings_dedup.2 [("PyLED", "Label", "UV")] "PyLED" "Label" "BLUE").2) rfl rfl⟩

/-- Modelled from the spec: a live device property value — integer or
string typed (the `UniMMCore` merge engine is not under the provided
sources). -/
inductive PValue where
  | int (i : Int)
  | str (s : String)
  deriving Repr, DecidableEq

/-- Modelled from the spec: type-aware comparison between a live typed
value and a declared value-as-string — a numeric string matches the
equal integer (e.g. "1" matches the integer 1), otherwise plain string
equality. -/
def valueMatches (live : PValue) (declared : String) : Bool :=
  match live with
  | .int i =>
    match parseInt declared with
    | some j => i == j
    | none => false
  | .str s => s == declared

/-- A named config: an ordered settings list under a name. -/
structure Config where
  name : String
  settings : List Setting
  deriving Repr, DecidableEq

/-- A named config group: its configs in definition order. -/
structure ConfigGroup where
  name : String
  configs : List Config
  deriving Repr, DecidableEq

/-- Modelled from the spec: a config is current iff every setting it
declares matches the live value of its (device, property) target. -/
def configMatches (live : String → String → Option PValue) (c : Config) : Bool :=
  c.settings.all fun s =>
    match live s.1 s.2.1 with
    | some v => valueMatches v s.2.2
    | none => false

/-- Modelled from the spec: `get_current_config` — the name of the
first config in definition order whose settings all match the live
values; `none` ("no current config") when no config fully matches,
rather than an error. -/
def get_current_config (g : ConfigGroup) (live : String → String → Option PValue) :
    Option String :=
  (g.configs.find? (configMatches live)).map fun c => c.name

theorem find?_eq_some_of_first {α : Type} (p : α → Bool) :
    ∀ (l : List α) (k : Nat) (a : α), l[k]? = some a → p a = true →
      (∀ j b, j < k → l[j]? = some b → p b = false) → l.find? p = some a := by
  intro l
  induction l with
  | nil => intro k a h _ _; simp at h
  | cons x xs ih =>
    intro k a h hp hearlier
    cases k with
    | zero =>
      rw [List.getElem?_cons_zero] at h
      have hxa : x = a := Option.some.inj h
      subst hxa
      exact List.find?_cons_of_pos xs hp
    | succ k =>
      have hx : p x = false :=
        hearlier 0 x (Nat.succ_pos k) (List.getElem?_cons_zero)
      rw [List.find?_cons_of_neg xs (by rw [hx]; exact Bool.false_ne_true)]
      rw [List.getElem?_cons_succ] at h
      exact ih k a h hp fun j b hj hb =>
        hearlier (j + 1) b (Nat.succ_lt_succ hj) (by rw [List.getElem?_cons_succ]; exact hb)

/-- Claim C8: `get_current_config` answers `none` exactly when no
config of the group fully matches the live values; when the config at
position `k` fully matches and every earlier config does not, the
returned name is that config's (first match in definition order); and
every returned name belongs to a fully matching config of the group. -/
theorem current_config_detection (g : ConfigGroup) (live : String → String → Option PValue) :
    (get_current_config g live = none ↔ ∀ c ∈ g.configs, configMatches live c = false) ∧
    (∀ (k : Nat) (c : Config), g.configs[k]? = some c → configMatches live c = true →
      (∀ (j : Nat) (c2 : Config), j < k → g.configs[j]? = some c2 →
        configMatches live c2 = false) →
      get_current_config g live = some c.name) ∧
    (∀ n, get_current_config g live = some n →
      ∃ c ∈ g.configs, c.name = n ∧ configMatches live c = true) := by
  refine ⟨?_, ?_, ?_⟩
  · unfold get_current_config
    rw [Option.map_eq_none', List.find?_eq_none]
    simp only [Bool.not_eq_true]
  · intro k c hk hc hearlier
    unfold get_current_config
    rw [find?_eq_some_of_first (configMatches live) g.configs k c hk hc hearlier]
    rfl
  · intro n hn
    unfold get_current_config at hn
    cases hfind : g.configs.find? (configMatches live) with
    | none => rw [hfind] at hn; exact Option.noConfusion hn
    | some c =>
      rw [hfind] at hn
      exact ⟨c, List.mem_of_find?_eq_some hfind, Option.some.inj hn, List.find?_some hfind⟩

/-- Witness for C8: the test's group with configs `uv` and `blue`, with
the device live at label "BLUE": the current config is "blue" (config
`uv`, earlier in definition order, does not match). -/
theorem current_config_detection_witness :
    get_current_config
      ⟨"grp", [⟨"uv", [("PyLED", "Label", "UV")]⟩, ⟨"blue", [("PyLED", "Label", "BLUE")]⟩]⟩
      (fun d p => if d == "PyLED" && p == "Label" then some (.str "BLUE") else none) =
      some "blue" := by
  have h := (current_config_detection
      ⟨"grp", [⟨"uv", [("PyLED", "Label", "UV")]⟩, ⟨"blue", [("PyLED", "Label", "BLUE")]⟩]⟩
      (fun d p => if d == "PyLED" && p == "Label" then some (.str "BLUE") else none)).2.1
      1 ⟨"blue", [("PyLED", "Label", "BLUE")]⟩ rfl (by decide) ?_
  · exact h
  · intro j c2 hj hb
    interval_cases j
    rw [List.getElem?_cons_zero] at hb
    rw [← Option.some.inj hb]
    decide

/-- Modelled from the spec: the opaque native engine — the group names
it knows and its own (opaque) answer for a group's state. -/
structure NativeEngine where
  groups : List String
  groupState : String → List Setting

/-- A group-state answer: the native engine's own data, or the software
fallback mapping of live values per referenced (device, property). -/
inductive GroupStateAnswer where
  | nativeData (data : List Setting)
  | mapping (data : List (String × String × PValue))
  deriving Repr, DecidableEq

/-- Modelled from the spec: the deduplicated (device, property) pairs
referenced by any config of a group. -/
def groupPairs (g : ConfigGroup) : List (String × String) :=
  (g.configs.flatMap fun c => c.settings.map fun s => (s.1, s.2.1)).dedup

/-- Modelled from the spec: `get_config_group_state(group, native)` —
with `native=True` the call is answered purely by the native engine,
raising `RuntimeError` when the engine has no such group and never
consulting the software store; otherwise a software group is answered
by reading each referenced pair's live value (the mapping fallback),
and a group known only to the native engine by the engine. -/
def get_config_group_state (sw : List ConfigGroup) (eng : NativeEngine) (group : String)
    (native : Bool) (live : String → String → Option PValue) :
    Except PyErr GroupStateAnswer :=
  if native then
    if eng.groups.contains group then .ok (.nativeData (eng.groupState group))
    else .error (.runtimeError ("No group with name: " ++ group))
  else
    match sw.find? fun g => g.name == group with
    | some g => .ok (.mapping ((groupPairs g).filterMap fun pr =>
        (live pr.1 pr.2).map fun v => (pr.1, pr.2, v)))
    | none =>
      if eng.groups.contains group then .ok (.nativeData (eng.groupState group))
      else .error (.runtimeError ("No group with name: " ++ group))

/-- Claim C7: with `native=True`, `get_config_group_state` fails with
`RuntimeError` whenever the native engine has no group of the requested
name — even when a software group of that name exists — and in this
mode the answer never depends on the software store or on live software
values. -/
theorem native_group_state_strict (sw sw2 : List ConfigGroup) (eng : NativeEngine)
    (group : String) (live live2 : String → String → Option PValue) :
    (eng.groups.contains group = false →
      get_config_group_state sw eng group true live =
        .error (.runtimeError ("No group with name: " ++ group))) ∧
    get_config_group_state sw eng group true live =
      get_config_group_state sw2 eng group true live2 := by
  constructor
  · intro h
    unfold get_config_group_state
    rw [if_pos rfl, h, if_neg Bool.false_ne_true]
  · rfl

/-- Witness for C7: a software store holding "my_group" does not help a
`native=True` query when the engine only knows "Channel": the call
raises `RuntimeError`. -/
theorem native_group_state_strict_witness :
    get_config_group_state [⟨"my_group", [⟨"uv_cfg", [("PyLED", "Label", "UV")]⟩]⟩]
      ⟨["Channel"], fun _ => []⟩ "my_group" true (fun _ _ => none) =
      .error (.runtimeError ("No group with name: " ++ "my_group")) :=
  (native_group_state_strict [⟨"my_group", [⟨"uv_cfg", [("PyLED", "Label", "UV")]⟩]⟩] []
    ⟨["Channel"], fun _ => []⟩ "my_group" (fun _ _ => none) (fun _ _ => none)).1 (by decide)

end Spec2Proof
